import Mathlib

/-!
Shallow embedding of the MotionMatrix backend's authentication and
role-authorization subsystem, translated from the Python sources:

* `backend/app/utils/enums.py` — `UserRole`, `UserStatus`, `APIEndpoint`
* `backend/app/core/exceptions.py` — the exception constructors used by the
  auth service
* `backend/app/models/user.py` — the `User` model (fields relevant to auth)
* `backend/app/repositories/user_repo.py` — `UserRepository.get_by_email`
* `backend/app/services/auth_service.py` — `auth_service_login`,
  `auth_service_validate_token`, `AUTHORIZATION_MAP`, `get_authorized_roles`,
  `is_authorized`, `get_current_user`, `require_authorization`

The module `backend/app/core/security.py` (`verify_password`,
`create_refresh_token`, `decode_access_token`) is referenced by the service
layer but is not present in the sources; the codec functions are modelled
from the spec (each such definition is marked `Modelled from the spec:`).
`verify_password` turns out to be unreachable: `auth_service_login` and
`get_current_user` pass their repository lookup's arguments positionally in
the wrong order (`get_by_email(user_login.email, db)` against the signature
`get_by_email(self, db, email)`), binding the SQLAlchemy `Session` to
`email`, so the repository's `email.lower()` raises an uncaught
`AttributeError` before any later step runs; the embedding keeps that crash.
Only `auth_service_validate_token` calls the repository with keywords, so
only there does the lookup actually happen.

Machine times are seconds since the epoch (`Int`); a raised Python exception
is an `Except.error`; an uncaught Python runtime fault (an `AttributeError`)
is the distinguished `ServiceError.pyError` outcome.
-/

namespace MotionMatrix

/-! ### `backend/app/utils/enums.py` -/

/-- User roles, from `enums.py` (`UserRole`, a `DescriptiveEnum`). -/
inductive UserRole where
  | ADMIN
  | OWNER
  | MANAGER
  | FLOOR_MANAGER
  | WORKER
deriving DecidableEq, Repr, Fintype

/-- The string `.value` of each `UserRole` member (first tuple component in
`DescriptiveEnum.__new__`). -/
def UserRole.value : UserRole → String
  | .ADMIN => "ADMIN"
  | .OWNER => "OWNER"
  | .MANAGER => "MANAGER"
  | .FLOOR_MANAGER => "FLOOR_MANAGER"
  | .WORKER => "WORKER"

/-- `UserRole.get_hierarchical_roles`: roles at or below the given role, via
the literal `hierarchy` dict in `enums.py` (default `[]` is unreachable since
the dict covers every member). -/
def UserRole.get_hierarchical_roles : UserRole → List UserRole
  | .ADMIN => [.ADMIN, .OWNER, .MANAGER, .FLOOR_MANAGER, .WORKER]
  | .OWNER => [.OWNER, .MANAGER, .FLOOR_MANAGER, .WORKER]
  | .MANAGER => [.MANAGER, .FLOOR_MANAGER, .WORKER]
  | .FLOOR_MANAGER => [.FLOOR_MANAGER, .WORKER]
  | .WORKER => [.WORKER]

/-- `UserRole.can_manage`: `target_role in manageable_roles and
manager_role != target_role`. -/
def UserRole.can_manage (manager_role target_role : UserRole) : Bool :=
  (UserRole.get_hierarchical_roles manager_role).contains target_role
    && manager_role != target_role

/-- Account statuses, from `enums.py` (`UserStatus`). -/
inductive UserStatus where
  | ACTIVE
  | INACTIVE
  | PENDING_PASSWORD_CHANGE
  | SUSPENDED
  | LOCKED
deriving DecidableEq, Repr, Fintype

/-- `UserStatus.active_statuses`. -/
def UserStatus.active_statuses : List UserStatus :=
  [.ACTIVE, .PENDING_PASSWORD_CHANGE]

/-- `UserStatus.is_active`: `status in cls.active_statuses()`. -/
def UserStatus.is_active (status : UserStatus) : Bool :=
  UserStatus.active_statuses.contains status

/-- API endpoints, from `enums.py` (`APIEndpoint`, a plain `str` enum). -/
inductive APIEndpoint where
  | REGISTER_USER
  | DELETE_USER
  | UPDATE_USER
  | VIEW_USERS
  | CREATE_POST
  | DELETE_POST
deriving DecidableEq, Repr, Fintype

/-! ### `backend/app/core/exceptions.py` -/

/-- The data carried by an application exception: HTTP status, machine error
code and human message (`AppException.__init__` in `exceptions.py`; the
optional `details` dict is `None` in every call site modelled here and is
omitted). -/
structure ExceptionInfo where
  status_code : Nat
  error_code : String
  message : String
deriving DecidableEq, Repr

/-- `AuthenticationException(message)`: HTTP 401, default error code
`AUTHENTICATION_FAILED`. -/
def AuthenticationException (message : String := "Authentication failed") : ExceptionInfo :=
  { status_code := 401, error_code := "AUTHENTICATION_FAILED", message := message }

/-- `TokenExpiredException(message)`: an `AuthenticationException` with error
code `TOKEN_EXPIRED`. -/
def TokenExpiredException (message : String := "Authentication token has expired") :
    ExceptionInfo :=
  { status_code := 401, error_code := "TOKEN_EXPIRED", message := message }

/-- `InvalidTokenException(message)`: an `AuthenticationException` with error
code `INVALID_TOKEN`. -/
def InvalidTokenException (message : String := "Invalid authentication token") :
    ExceptionInfo :=
  { status_code := 401, error_code := "INVALID_TOKEN", message := message }

/-- Failure outcome of a service call: a raised application exception, a
raised FastAPI `HTTPException(status_code, detail)`, or an uncaught Python
runtime error (a crash, e.g. `AttributeError` on `None`). -/
inductive ServiceError where
  | exc (e : ExceptionInfo)
  | http (status_code : Nat) (detail : String)
  | pyError (msg : String)
deriving DecidableEq, Repr

/-! ### Token model (`backend/app/schemas/token.py` and the spec's Token Codec) -/

/-- The claims a signed token carries: optional `sub` and `role` claims plus
the mandatory `exp` timestamp (seconds since epoch). -/
structure JWTClaims where
  sub : Option String
  role : Option UserRole
  exp : Int
deriving DecidableEq, Repr

/-- A bearer-token string as the codec sees it: either malformed/unsigned
garbage, or a well-signed encoding of some claims. -/
inductive TokenBytes where
  | garbage
  | wellSigned (claims : JWTClaims)
deriving DecidableEq, Repr

/-- The `data` dict handed to the token issuer (`auth_service_login` passes
exactly `data = \x7b"sub": user.email\x7d`). -/
structure TokenData where
  sub : Option String := none
  role : Option UserRole := none
deriving DecidableEq, Repr

/-- Modelled from the spec: `create_refresh_token` from
`backend/app/core/security.py`, which is absent from the sources. Spec §4.2
(`issueRefreshToken`): signs exactly the claims passed in, adding
`exp = now + ttl`; no claim is added beyond what the caller supplies. -/
def create_refresh_token (data : TokenData) (now ttl_long : Int) : TokenBytes :=
  .wellSigned { sub := data.sub, role := data.role, exp := now + ttl_long }

/-- Modelled from the spec: `decode_access_token` from
`backend/app/core/security.py`, which is absent from the sources. Spec §4.2
(`decode`): verifies signature and shape, failing distinctly —
malformed/unsigned input raises `InvalidToken`, a valid signature whose `exp`
is in the past raises `TokenExpired`. -/
def decode_access_token (token : TokenBytes) (now : Int) : Except ExceptionInfo JWTClaims :=
  match token with
  | .garbage => .error (InvalidTokenException)
  | .wellSigned claims =>
    if claims.exp < now then .error (TokenExpiredException)
    else .ok claims

/-- `Token` response schema (`schemas/token.py`): access token plus type. -/
structure Token where
  access_token : TokenBytes
  token_type : String
deriving DecidableEq, Repr

/-- `TokenPayload` schema (`schemas/token.py`): `sub` (user id), `role`,
optional `email`, and `exp`. -/
structure TokenPayload where
  sub : Nat
  role : UserRole
  email : Option String
  exp : Int
deriving DecidableEq, Repr

/-- `UserLogin` credentials (`schemas/user.py`). -/
structure UserLogin where
  email : String
  password : String
deriving DecidableEq, Repr

/-! ### `backend/app/models/user.py` and `backend/app/repositories/user_repo.py` -/

/-- The `User` model, restricted to the fields the auth core reads. The
database check constraints `check_valid_role` / `check_valid_status` confine
the stored strings to the enum values, so `role` and `status` are carried as
the enums themselves. -/
structure User where
  id : Nat
  email : String
  hashed_password : String
  role : UserRole
  status : UserStatus
deriving DecidableEq, Repr

/-- The user table: the persistent store is a list of rows. -/
def DB := List User

/-- Python `str.lower`, character-wise (ASCII case mapping suffices for the
email alphabet the model ranges over). -/
def py_lower (s : String) : String := String.mk (s.data.map Char.toLower)

/-- Python `str.strip` with no argument: removes leading and trailing
whitespace. -/
def py_strip (s : String) : String :=
  String.mk (((s.data.dropWhile Char.isWhitespace).reverse.dropWhile
    Char.isWhitespace).reverse)

/-- `UserRepository.get_by_email`: normalizes the email
(`email.lower().strip()`) and returns the first matching row, `None` if
absent. -/
def get_by_email (db : List User) (email : String) : Option User :=
  let e := py_strip (py_lower email)
  db.find? (fun u => u.email == e)

/-! ### `backend/app/services/auth_service.py` -/

/-- `auth_service_login`: its first step is
`user = user_repo.get_by_email(user_login.email, db)` — positional arguments
against the repository signature `get_by_email(self, db, email)`, so the
`Session` is bound to `email` and the email string to `db`. The repository's
first statement `email.lower()` therefore raises
`AttributeError: 'Session' object has no attribute 'lower'`, which nothing
catches (the repository catches only `SQLAlchemyError`, the route only
`ValueError`). Every call crashes there: the absent-user check, the
`verify_password` check and the `create_refresh_token(data=\x7b"sub":
user.email\x7d)` issuance that follow in the source are unreachable. -/
def auth_service_login (user_login : UserLogin) (db : List User) :
    Except ServiceError Token :=
  .error (.pyError "AttributeError: 'Session' object has no attribute 'lower'")

/-- `auth_service_validate_token` (the refresh exchange): decodes the refresh
token (decode failures propagate; the `if not payload` guard in the source
fires only on a falsy decode result, which the spec-modelled decoder never
returns), recomputes the expiry as the token's original `exp` plus 7 days
(`datetime.fromtimestamp(int(payload["exp"])) + timedelta(days=7)`), re-looks
the user up by the `sub` claim, and builds
`TokenPayload(sub=user.id, role=UserRole(user.role), email=user.email,
exp=dt)`. Reading `payload["sub"]` when the claim is absent raises `KeyError`;
reading `user.id` when the lookup returned `None` raises `AttributeError` —
both are crashes, not handled errors. -/
def auth_service_validate_token (token : TokenBytes) (db : List User) (now : Int) :
    Except ServiceError TokenPayload :=
  match decode_access_token token now with
  | .error e => .error (.exc e)
  | .ok payload =>
    let dt : Int := payload.exp + 7 * 86400
    match payload.sub with
    | none => .error (.pyError "KeyError: sub")
    | some user_email =>
      match get_by_email db user_email with
      | none => .error (.pyError "AttributeError: NoneType object has no attribute id")
      | some user =>
        .ok { sub := user.id, role := user.role, email := some user.email, exp := dt }

/-- `AUTHORIZATION_MAP`: the static endpoint allowlist table — only two
entries. -/
def AUTHORIZATION_MAP : List (APIEndpoint × List UserRole) :=
  [(.REGISTER_USER, [.ADMIN]),
   (.DELETE_USER, [.ADMIN])]

/-- `get_authorized_roles`: `AUTHORIZATION_MAP.get(endpoint, [])`. -/
def get_authorized_roles (endpoint : APIEndpoint) : List UserRole :=
  match AUTHORIZATION_MAP.find? (fun p => p.1 == endpoint) with
  | some p => p.2
  | none => []

/-- `is_authorized`: `user_role in [role.value for role in authorized_roles]`
(string membership in the allowlist's `.value` list). -/
def is_authorized (user_role : String) (endpoint : APIEndpoint) : Bool :=
  ((get_authorized_roles endpoint).map UserRole.value).contains user_role

/-- `get_current_user`: decodes the bearer token (decode failures propagate;
the `if not payload` guard fires only on a falsy decode result), then calls
`user_repo.get_by_email(payload.get("sub"), db)` — positional arguments
against `get_by_email(self, db, email)`, binding the `Session` to `email`
exactly as in `auth_service_login`. The repository's `email.lower()` raises
an uncaught `AttributeError` for every decoded token, whatever the `sub`
claim and whether or not the principal exists, so no user (and no `None`) is
ever returned. -/
def get_current_user (token : TokenBytes) (db : List User) (now : Int) :
    Except ServiceError (Option User) :=
  match decode_access_token token now with
  | .error e => .error (.exc e)
  | .ok _payload =>
    .error (.pyError "AttributeError: 'Session' object has no attribute 'lower'")

/-- The checker produced by `require_authorization(endpoint)`, applied to a
resolved user: raises `HTTPException(403, "Access denied. Required roles:
...; Your role: ...")` when `is_authorized(current_user.role, endpoint)` is
false, and passes the user through unchanged otherwise. (`str` of a
`DescriptiveEnum` member is its `.value`.) -/
def authorization_checker (endpoint : APIEndpoint) (current_user : User) :
    Except ServiceError User :=
  if !(is_authorized current_user.role.value endpoint) then
    let roles_str :=
      String.intercalate ", " ((get_authorized_roles endpoint).map UserRole.value)
    .error (.http 403
      ("Access denied. Required roles: " ++ roles_str ++ ". Your role: "
        ++ current_user.role.value))
  else
    .ok current_user

/-- Position of a role in the fixed total order
ADMIN > OWNER > MANAGER > FLOOR_MANAGER > WORKER (0 is highest); `m` is
strictly above `t` iff `m.rank < t.rank`. -/
def UserRole.rank : UserRole → Nat
  | .ADMIN => 0
  | .OWNER => 1
  | .MANAGER => 2
  | .FLOOR_MANAGER => 3
  | .WORKER => 4

/-! ### Claim theorems -/

/-- C5: `UserRole.can_manage m t` is true exactly when `m` is strictly above
`t` in the fixed total order ADMIN > OWNER > MANAGER > FLOOR_MANAGER >
WORKER; in particular `can_manage r r` is false for every role, ADMIN can
manage every role other than itself, and WORKER can manage no role. -/
theorem can_manage_iff_strictly_above :
    (∀ m t : UserRole, UserRole.can_manage m t = decide (m.rank < t.rank))
      ∧ (∀ r : UserRole, UserRole.can_manage r r = false)
      ∧ (∀ x : UserRole, UserRole.can_manage .ADMIN x = (x != .ADMIN))
      ∧ (∀ x : UserRole, UserRole.can_manage .WORKER x = false) := by
  refine ⟨?_, ?_, ?_, ?_⟩ <;> decide

/-- C10: the four endpoints absent from `AUTHORIZATION_MAP` (UPDATE_USER,
VIEW_USERS, CREATE_POST, DELETE_POST) default to the empty allowlist, so
`is_authorized` is false for every role string and every resolved caller is
denied with a 403 on each of them. -/
theorem unmapped_endpoints_deny_everyone (s : String) (u : User) :
    get_authorized_roles .UPDATE_USER = [] ∧ get_authorized_roles .VIEW_USERS = []
      ∧ get_authorized_roles .CREATE_POST = [] ∧ get_authorized_roles .DELETE_POST = []
      ∧ is_authorized s .UPDATE_USER = false ∧ is_authorized s .VIEW_USERS = false
      ∧ is_authorized s .CREATE_POST = false ∧ is_authorized s .DELETE_POST = false
      ∧ authorization_checker .UPDATE_USER u
          = .error (.http 403 ("Access denied. Required roles: . Your role: " ++ u.role.value))
      ∧ authorization_checker .VIEW_USERS u
          = .error (.http 403 ("Access denied. Required roles: . Your role: " ++ u.role.value))
      ∧ authorization_checker .CREATE_POST u
          = .error (.http 403 ("Access denied. Required roles: . Your role: " ++ u.role.value))
      ∧ authorization_checker .DELETE_POST u
          = .error (.http 403 ("Access denied. Required roles: . Your role: " ++ u.role.value)) := by
  obtain ⟨i, em, hp, r, st⟩ := u
  refine ⟨rfl, rfl, rfl, rfl, rfl, rfl, rfl, rfl, ?_, ?_, ?_, ?_⟩ <;> cases r <;> rfl

/-- C6: the authorization check is exact membership of the principal's role
in the endpoint's static allowlist — pass-through unchanged on membership,
403 denial reporting the required roles and the actual role otherwise, with
no hierarchy expansion; concretely a WORKER and even an OWNER are denied on
the ADMIN-only registration endpoint. -/
theorem authorization_exact_allowlist :
    (∀ (u : User) (e : APIEndpoint),
        authorization_checker e u =
          if u.role ∈ get_authorized_roles e then .ok u
          else .error (.http 403
            ("Access denied. Required roles: "
              ++ String.intercalate ", " ((get_authorized_roles e).map UserRole.value)
              ++ ". Your role: " ++ u.role.value)))
      ∧ authorization_checker .REGISTER_USER ⟨7, "w@x.com", "h", .WORKER, .ACTIVE⟩
          = .error (.http 403 "Access denied. Required roles: ADMIN. Your role: WORKER")
      ∧ authorization_checker .REGISTER_USER ⟨8, "o@x.com", "h", .OWNER, .ACTIVE⟩
          = .error (.http 403 "Access denied. Required roles: ADMIN. Your role: OWNER") := by
  refine ⟨fun u e => ?_, rfl, rfl⟩
  obtain ⟨i, em, hp, r, st⟩ := u
  cases e <;> cases r <;> rfl

/-- C9 (code evaluated at the failing input): two identical logins against
stores whose single principal differs only in status (ACTIVE vs LOCKED), a
principal whose stored password would verify, produce the same result — but
that result is the uncaught `AttributeError` crash from the swapped
`get_by_email` call, not a token: login crashes before it could consult the
password or the status, so no token is issued for any status. -/
theorem login_crashes_regardless_of_status :
    auth_service_login ⟨"a@x.com", "pw"⟩ [⟨1, "a@x.com", "h", .ADMIN, .ACTIVE⟩]
        = .error (.pyError "AttributeError: 'Session' object has no attribute 'lower'")
      ∧ auth_service_login ⟨"a@x.com", "pw"⟩ [⟨1, "a@x.com", "h", .ADMIN, .LOCKED⟩]
        = .error (.pyError "AttributeError: 'Session' object has no attribute 'lower'") :=
  ⟨rfl, rfl⟩

/-- C1: a successful refresh exchange returns a payload whose expiry is the
refresh token's original `exp` claim plus a fixed 7-day window, for every
wall-clock instant `now` at which the exchange succeeds — anchored to the
original claim, not to exchange time. -/
theorem refresh_exp_anchored_to_original (token : TokenBytes) (db : List User)
    (now : Int) (p : TokenPayload)
    (h : auth_service_validate_token token db now = .ok p) :
    ∃ claims, token = .wellSigned claims ∧ p.exp = claims.exp + 7 * 86400 := by
  cases token with
  | garbage => simp [auth_service_validate_token, decode_access_token] at h
  | wellSigned claims =>
    refine ⟨claims, rfl, ?_⟩
    by_cases hexp : claims.exp < now
    · simp [auth_service_validate_token, decode_access_token, hexp] at h
    · cases hs : claims.sub with
      | none => simp [auth_service_validate_token, decode_access_token, hexp, hs] at h
      | some em =>
        cases hg : get_by_email db em with
        | none => simp [auth_service_validate_token, decode_access_token, hexp, hs, hg] at h
        | some u =>
          simp only [auth_service_validate_token, decode_access_token, if_neg hexp, hs, hg,
            Except.ok.injEq] at h
          rw [← h]

/-- Closed witness for C1: a token with `exp = 1000` exchanged at `now = 0`
against a store holding its subject yields a payload with
`exp = 1000 + 7 * 86400 = 605800`. -/
theorem refresh_exp_anchored_to_original_witness :
    ∃ claims, TokenBytes.wellSigned ⟨some "a@x.com", none, 1000⟩ = .wellSigned claims
      ∧ (605800 : Int) = claims.exp + 7 * 86400 :=
  refresh_exp_anchored_to_original (.wellSigned ⟨some "a@x.com", none, 1000⟩)
    [⟨1, "a@x.com", "h", .ADMIN, .ACTIVE⟩] 0 ⟨1, .ADMIN, some "a@x.com", 605800⟩ (by rfl)

/-- C2: decoding fails distinctly — malformed/unsigned input yields
`InvalidToken` while a well-signed token whose `exp` is in the past yields
`TokenExpired` — and the refresh-exchange service propagates the two failure
kinds without collapsing them (their error codes differ). -/
theorem decode_failure_kinds_distinct (claims : JWTClaims) (db : List User) (now : Int)
    (hexp : claims.exp < now) :
    decode_access_token .garbage now = .error (InvalidTokenException)
      ∧ decode_access_token (.wellSigned claims) now = .error (TokenExpiredException)
      ∧ auth_service_validate_token .garbage db now = .error (.exc (InvalidTokenException))
      ∧ auth_service_validate_token (.wellSigned claims) db now
          = .error (.exc (TokenExpiredException))
      ∧ (InvalidTokenException).error_code ≠ (TokenExpiredException).error_code := by
  refine ⟨rfl, ?_, rfl, ?_, by decide⟩
  · simp [decode_access_token, hexp]
  · simp [auth_service_validate_token, decode_access_token, hexp]

/-- Closed witness for C2: a well-signed token with `exp = 0` decoded at
`now = 1` is expired. -/
theorem decode_failure_kinds_distinct_witness :
    decode_access_token .garbage 1 = .error (InvalidTokenException)
      ∧ decode_access_token (.wellSigned ⟨none, none, 0⟩) 1 = .error (TokenExpiredException)
      ∧ auth_service_validate_token .garbage [] 1 = .error (.exc (InvalidTokenException))
      ∧ auth_service_validate_token (.wellSigned ⟨none, none, 0⟩) [] 1
          = .error (.exc (TokenExpiredException))
      ∧ (InvalidTokenException).error_code ≠ (TokenExpiredException).error_code :=
  decode_failure_kinds_distinct ⟨none, none, 0⟩ [] 1 (by decide)

/-- C4 counterexample: at a concrete input whose store holds a principal with
the matching email, login crashes with the uncaught `AttributeError` and
returns no token at all — a fortiori no token embedding the principal's role
alongside the subject. -/
theorem login_token_role_claim_cex :
    auth_service_login ⟨"a@x.com", "pw"⟩ [⟨1, "a@x.com", "h", .ADMIN, .ACTIVE⟩]
        = .error (.pyError "AttributeError: 'Session' object has no attribute 'lower'")
      ∧ (auth_service_login ⟨"a@x.com", "pw"⟩
          [⟨1, "a@x.com", "h", .ADMIN, .ACTIVE⟩]).isOk = false := ⟨rfl, rfl⟩

/-- C4 (amended): `auth_service_login` never returns a token to embed
anything in: every call, whatever the credentials and the store, crashes at
the swapped repository call before any token issuance. -/
theorem login_never_issues_token (l : UserLogin) (db : List User) :
    (auth_service_login l db).isOk = false := rfl

/-- C7 (code evaluated at the failing input): a well-signed token whose
subject matches no stored principal makes `get_current_user` crash with the
uncaught `AttributeError` from the swapped lookup — it neither fails with
`InvalidToken` nor resolves (or returns) any principal. -/
theorem get_current_user_crashes_on_lookup :
    get_current_user (.wellSigned ⟨some "ghost@x.com", none, 10⟩) [] 0
      = .error (.pyError "AttributeError: 'Session' object has no attribute 'lower'") := rfl

/-- C8 (code evaluated at the failing input): a well-signed refresh token
whose subject matches no stored principal makes `auth_service_validate_token`
crash reading `user.id` on `None` (an uncaught `AttributeError`), not raise
`AuthenticationFailed`. -/
theorem validate_token_crashes_on_missing_principal :
    auth_service_validate_token (.wellSigned ⟨some "ghost@x.com", none, 10⟩) [] 0
      = .error (.pyError "AttributeError: NoneType object has no attribute id") := rfl

end MotionMatrix
